import Mathlib

/- A shallow embedding of the CBSD-SAS client core in src/corenet/socket_to_sas.py.
   Dictionary fields are modelled as Option values; Python truthiness of a string
   field (`if(not x)` after `_grabPossibleEntry`) is `truthy`: an absent key and an
   empty value are both falsy.  A present-but-empty dictionary is observationally
   identical to an absent one under the source's truthiness tests, so nested
   objects are likewise modelled as Option records.  Python exceptions are
   modelled with Except, the error value carrying the state at the moment of the
   raise (mutations performed before the raise persist, as in Python). -/

namespace SasClient

/-- Python truthiness of an optional string field: absent (None) and the empty
string are falsy, every other string is truthy. -/
def truthy : Option String → Bool
  | none => false
  | some s => !(s == "")

/-- Python runtime errors raised by the embedded code paths. -/
inductive PyError
  | indexError
  | attributeError
  | nameError
  | typeError
  | valueError
deriving DecidableEq

/-- A JSON value bound to the `measReportConfig` key: the source wraps a
non-list value into a singleton list before storing it
(`if(not isinstance(measReportConfig, list))`). -/
inductive MeasVal
  | single (s : String)
  | multi (l : List String)
deriving DecidableEq

/-- Python truthiness of a `measReportConfig` value: the empty string and the
empty list are falsy. -/
def MeasVal.truthyV : MeasVal → Bool
  | .single s => !(s == "")
  | .multi l => !l.isEmpty

/-- The list wrapping performed before `node.setMeasReportConfig`. -/
def MeasVal.asList : MeasVal → List String
  | .single s => [s]
  | .multi l => l

/-- Modelled from the spec: the Grant object of `WinnForum.py` (imported by
socket_to_sas.py with `from WinnForum import *` but not under src/): "fields:
grantId, status, grantExpireTime, transmitExpireTime, heartbeatInterval
(seconds), channelType", "created empty alongside its Node".  `Grant.__init__()`
with no arguments yields this empty record. -/
structure Grant where
  grantId : Option String := none
  grantStatus : Option String := none
  grantExpireTime : Option String := none
  transmitExpireTime : Option String := none
  heartbeatInterval : Option String := none
  channelType : Option String := none
deriving DecidableEq

/-- The NONE/empty Grant state produced by `Grant.__init__()`. -/
def emptyGrant : Grant := {}

/-- Modelled from the spec: the Node object of `usrps.py` (imported by
socket_to_sas.py but not under src/): identity is the network address (stable),
the hardware serial number, and the server-assigned `cbsdId` (absent until the
first successful registration response); a Node owns exactly one Grant and a
`measReportConfig` sequence that is replaced in full on update.  Radio operating
parameters are irrelevant to the claims and omitted. -/
structure Node where
  ipAddress : String
  serialNumber : Option String := none
  cbsdId : Option String := none
  measReportConfig : Option (List String) := none
  grant : Grant := {}
deriving DecidableEq

/-- Callbacks handed to `threading.Timer` in the source: `node_stop` (modelled
from the spec: the radio-stop callback armed as the expiry watchdog; the name is
imported from a module that is not under src/) and the `heartbeatRequest`
function scheduled by `handleHeartbeatResponse`. -/
inductive TimerCb
  | nodeStop
  | heartbeatRequestCb
deriving DecidableEq

/-- An armed `threading.Timer`: its delay in seconds (exact arithmetic; binary
floating-point rounding is abstracted to rationals) and its callback.
`cancelled` records a completed `.cancel()`. -/
structure Timer where
  delay : ℚ
  callback : TimerCb
  cancelled : Bool := false
deriving DecidableEq

/-- The module-level mutable state of socket_to_sas.py.  Nodes live in a store
modelling `created_nodes`; the correlation queue `tempNodeList` holds references
(store indices) because the Python lists alias the very same Node objects.
`heartbeatTimer` is the value of the `__heartbeatTimer` module variable;
`watchdogs` and `renewalTimers` are the armed `threading.Timer` objects. -/
structure SasState where
  nodes : List Node
  tempNodeList : List Nat
  heartbeatTimer : Option Nat := none
  watchdogs : List Timer := []
  renewalTimers : List Timer := []
deriving DecidableEq

/-- In-place mutation of the node stored at index `i` (Python object mutation
through a shared reference); out-of-range indices leave the store unchanged. -/
def setAt : List Node → Nat → (Node → Node) → List Node
  | [], _, _ => []
  | n :: ns, 0, f => f n :: ns
  | n :: ns, k + 1, f => n :: setAt ns k f

/-- Mutate the node referenced by `nid` in the store. -/
def modifyNode (st : SasState) (nid : Nat) (f : Node → Node) : SasState :=
  { st with nodes := setAt st.nodes nid f }

/-- `findTempNodeByCbsdId` (socket_to_sas.py:180-198): walk `tempNodeList` and
return the first Node whose `getCbsdId()` equals the given cbsdId, else None. -/
def findTempNodeByCbsdId (st : SasState) (cbsdId : String) : Option Nat :=
  st.tempNodeList.find? fun nid => ((st.nodes.get? nid).bind Node.cbsdId) == some cbsdId

/-- Modelled from the spec: resolution "by the `cbsdId` field in the response
via registry lookup" - a lookup over the device registry (`created_nodes`).
This follows the spec's words only, to be compared with the source's
`findTempNodeByCbsdId`, which searches `tempNodeList` instead. -/
def registryLookupByCbsdId (st : SasState) (cbsdId : String) : Option Nat :=
  (List.range st.nodes.length).find? fun nid =>
    ((st.nodes.get? nid).bind Node.cbsdId) == some cbsdId

/-- `findCreatedNodeByIp` (socket_to_sas.py:200-217). -/
def findCreatedNodeByIp (st : SasState) (address : String) : Option Nat :=
  (List.range st.nodes.length).find? fun nid =>
    ((st.nodes.get? nid).map Node.ipAddress) == some address

/-- Reports printed by `_isValidResponse` (socket_to_sas.py:253-287), one
constructor per print statement. -/
inductive Report
  | responseCodeIs (s : String)
  | responseMessageIs (s : String)
  | responseDataIs (s : String)
  | errNoResponseCode
  | errNoResponseObject
  | errNonZeroCode
deriving DecidableEq

/-- The constructor tag of a report, forgetting the payload text. -/
def Report.tag : Report → Nat
  | .responseCodeIs _ => 0
  | .responseMessageIs _ => 1
  | .responseDataIs _ => 2
  | .errNoResponseCode => 3
  | .errNoResponseObject => 4
  | .errNonZeroCode => 5

/-- The `response` envelope object carried by every response element.  The
registration handler also reads `measReportConfig` out of this envelope
(socket_to_sas.py:603). -/
structure RespEnvelope where
  responseCode : Option String := none
  responseMessage : Option String := none
  responseData : Option String := none
  measReportConfig : Option MeasVal := none
deriving DecidableEq

/-- `_isValidResponse` (socket_to_sas.py:253-287): returns the boolean result
together with the reports it prints.  Absence of the envelope or of
`responseCode` is failure; `responseMessage`/`responseData` are printed whenever
present; any code other than the string "0" (plain string comparison, no
numeric parsing) is failure. -/
def isValidResponse : Option RespEnvelope → Bool × List Report
  | none => (false, [.errNoResponseObject])
  | some r =>
    match r.responseCode with
    | none => (false, [.errNoResponseCode])
    | some code =>
      if code = "" then (false, [.errNoResponseCode])
      else
        let msgs := [Report.responseCodeIs code]
          ++ (match r.responseMessage with
              | some m => if m = "" then [] else [Report.responseMessageIs m]
              | none => [])
          ++ (match r.responseData with
              | some d => if d = "" then [] else [Report.responseDataIs d]
              | none => [])
        if code = "0" then (true, msgs) else (false, msgs ++ [.errNonZeroCode])

/-- The condition "response envelope missing, or responseCode missing, or
responseCode non-zero" quoted by the spec's error-handling property. -/
def badEnvelope (o : Option RespEnvelope) : Prop :=
  o = none ∨ ∃ r, o = some r ∧ (truthy r.responseCode = false ∨ r.responseCode ≠ some "0")

/-- Numeric value of a list of decimal digit characters. -/
def digitsVal (cs : List Char) : Nat :=
  cs.foldl (fun a c => a * 10 + (c.toNat - 48)) 0

/-- All characters are decimal digits and the list is nonempty. -/
def allDigits (cs : List Char) : Bool :=
  !cs.isEmpty && cs.all Char.isDigit

/-- Split a character list at the decimal-point separators. -/
def splitDot : List Char → List (List Char)
  | [] => [[]]
  | c :: rest =>
    let r := splitDot rest
    if c = '.' then [] :: r
    else
      match r with
      | [] => [[c]]
      | g :: gs => (c :: g) :: gs

/-- Models Python `float()` on the nonnegative decimal literals the protocol
uses for `heartbeatInterval`; an unparsable string raises ValueError (`none`).
Binary floating-point rounding is abstracted to exact rational arithmetic. -/
def parsePyFloat (s : String) : Option ℚ :=
  match splitDot s.toList with
  | [w] => if allDigits w then some (digitsVal w) else none
  | [w, f] =>
    if allDigits w && allDigits f then
      some ((digitsVal w : ℚ) + (digitsVal f : ℚ) / 10 ^ f.length)
    else none
  | _ => none

/-- The registration-relevant fields of one simulation-file request entry
(socket_to_sas.py:404-476).  The purely optional pass-through fields (callSign,
cbsdCategory, cbsdInfo, airInterface, measCapability, groupingParam,
cpiSignatureData, vtParams) have no required-field check and no claim observes
them, so they are omitted. -/
structure RegRequest where
  nodeIp : Option String := none
  userId : Option String := none
  fccId : Option String := none
deriving DecidableEq

/-- The required fields of a built `RegistrationRequest` appended to the
outgoing batch (socket_to_sas.py:472-475); optional pass-through fields are
omitted as in `RegRequest`. -/
structure BuiltRegRequest where
  userId : String
  fccId : String
  cbsdSerialNumber : String
deriving DecidableEq

/-- `reqAddressToNode` (socket_to_sas.py:219-251): find the Node whose IP equals
the request's `nodeIp`; when `mustBeRegistered` also require a truthy cbsdId. -/
def reqAddressToNode (st : SasState) (r : RegRequest) (mustBeRegistered : Bool) : Option Nat :=
  match r.nodeIp with
  | none => none
  | some a =>
    if a = "" then none
    else
      match findCreatedNodeByIp st a with
      | none => none
      | some nid =>
        if mustBeRegistered && !truthy ((st.nodes.get? nid).bind Node.cbsdId) then none
        else some nid

/-- The loop body of `simRegistrationReq` (socket_to_sas.py:420-476) folded over
the request batch, accumulating built requests and appending correlation-queue
entries to `tempNodeList`.  A node that resolves but has a falsy serial number
raises: the diagnostic at line 431 evaluates `node.getIpaAddress`, an attribute
the Node object does not have (every other call site uses `getIpAddress()`),
so Python raises before reaching the `continue`. -/
def simRegLoop (st : SasState) (acc : List BuiltRegRequest) :
    List RegRequest → Except (PyError × SasState) (SasState × List BuiltRegRequest)
  | [] => .ok (st, acc)
  | r :: rest =>
    match reqAddressToNode st r false with
    | none => simRegLoop st acc rest
    | some nid =>
      match st.nodes.get? nid with
      | none => simRegLoop st acc rest
      | some n =>
        if !truthy n.serialNumber then .error (.attributeError, st)
        else if !truthy r.userId then simRegLoop st acc rest
        else if !truthy r.fccId then simRegLoop st acc rest
        else
          simRegLoop { st with tempNodeList := st.tempNodeList ++ [nid] }
            (acc ++ [{ userId := r.userId.getD "", fccId := r.fccId.getD "",
                       cbsdSerialNumber := n.serialNumber.getD "" }]) rest

/-- `simRegistrationReq` (socket_to_sas.py:404-476): reset the correlation queue
(`tempNodeList = []`) and walk the request batch. -/
def simRegistrationReq (st : SasState) (requests : List RegRequest) :
    Except (PyError × SasState) (SasState × List BuiltRegRequest) :=
  simRegLoop { st with tempNodeList := [] } [] requests

/-- One element of a `registrationResponse` batch. -/
structure RegResponse where
  response : Option RespEnvelope := none
  cbsdId : Option String := none
deriving DecidableEq

/-- The loop body of `handleRegistrationResponse` (socket_to_sas.py:585-608) for
the element at response index `i`: validate the envelope, then an unguarded
`tempNodeList[iter]` (IndexError when out of range), then `setCbsdId`.  When the
envelope carries a truthy `measReportConfig`, line 607 concatenates a string
with a list, so Python raises TypeError after the cbsdId assignment and before
`setMeasReportConfig`. -/
def processRegElement (st : SasState) (i : Nat) (e : RegResponse) :
    Except (PyError × SasState) SasState :=
  if (isValidResponse e.response).1 = false then .ok st
  else if truthy e.cbsdId then
    match st.tempNodeList.get? i with
    | none => .error (.indexError, st)
    | some nid =>
      let st2 := modifyNode st nid fun n => { n with cbsdId := e.cbsdId }
      match e.response.bind RespEnvelope.measReportConfig with
      | some m => if m.truthyV then .error (.typeError, st2) else .ok st2
      | none => .ok st2
  else .ok st

/-- Fold of `processRegElement` over a response batch starting at index `i`;
an exception aborts the remaining elements. -/
def processRegResponses : SasState → Nat → List RegResponse → Except (PyError × SasState) SasState
  | st, _, [] => .ok st
  | st, i, e :: rest =>
    match processRegElement st i e with
    | .ok st' => processRegResponses st' (i + 1) rest
    | .error x => .error x

/-- `handleRegistrationResponse` (socket_to_sas.py:563-608): a falsy
`registrationResponse` entry aborts, otherwise the batch is walked in order. -/
def handleRegistrationResponse (st : SasState) (data : Option (List RegResponse)) :
    Except (PyError × SasState) SasState :=
  match data with
  | none => .ok st
  | some [] => .ok st
  | some (e :: rest) => processRegResponses st 0 (e :: rest)

/-- The `operationFrequencyRange` sub-object of an `operationParam`. -/
structure FreqRange where
  lowFrequency : Option String := none
  highFrequency : Option String := none
deriving DecidableEq

/-- The `operationParam` object suggested by the SAS on a rejected grant or
heartbeat. -/
structure OperationParam where
  maxEirp : Option String := none
  operationFrequencyRange : Option FreqRange := none
deriving DecidableEq

/-- The Python locals `low`/`high` of the grant and heartbeat handlers: `none`
means the variable was never assigned in this handler call (reading it raises
NameError), `some v` means it holds the field value `v`. -/
abbrev Loc := Option (Option String)

/-- The rejected-element branch shared by `handleGrantResponse`
(socket_to_sas.py:826-839) and `handleHeartbeatResponse` (972-985): print the
suggested `operationParam` if any.  When `operationParam` is truthy but
`operationFrequencyRange` is not, `if(low and high and eirp)` reads the locals
`low`/`high`, which raises NameError unless an earlier iteration assigned them
(`and` short-circuits, so an unbound `high` is only read when `low` is truthy). -/
def suggestedOpParams (st : SasState) (lw hw : Loc) (op : Option OperationParam) :
    Except (PyError × SasState) (SasState × Loc × Loc) :=
  match op with
  | none => .ok (st, lw, hw)
  | some p =>
    match p.operationFrequencyRange with
    | some fr => .ok (st, some fr.lowFrequency, some fr.highFrequency)
    | none =>
      match lw with
      | none => .error (.nameError, st)
      | some l =>
        if truthy l then
          match hw with
          | none => .error (.nameError, st)
          | some _ => .ok (st, lw, hw)
        else .ok (st, lw, hw)

/-- One element of a `grantResponse` batch. -/
structure GrantResponse where
  response : Option RespEnvelope := none
  cbsdId : Option String := none
  channelType : Option String := none
  grantId : Option String := none
  grantExpireTime : Option String := none
  heartbeatInterval : Option String := none
  measReportConfig : Option MeasVal := none
  operationParam : Option OperationParam := none
deriving DecidableEq

/-- The loop body of `handleGrantResponse` (socket_to_sas.py:821-882): on
envelope failure print the suggested parameters; on success require
channelType, grantId, grantExpireTime, heartbeatInterval in that order, resolve
the Node by cbsdId through `findTempNodeByCbsdId`, optionally replace
`measReportConfig`, then set the Grant fields with status "GRANTED". -/
def processGrantElement (st : SasState) (lw hw : Loc) (e : GrantResponse) :
    Except (PyError × SasState) (SasState × Loc × Loc) :=
  if (isValidResponse e.response).1 = false then
    suggestedOpParams st lw hw e.operationParam
  else if !truthy e.channelType then .ok (st, lw, hw)
  else if !truthy e.grantId then .ok (st, lw, hw)
  else if !truthy e.grantExpireTime then .ok (st, lw, hw)
  else if !truthy e.heartbeatInterval then .ok (st, lw, hw)
  else if truthy e.cbsdId then
    match findTempNodeByCbsdId st (e.cbsdId.getD "") with
    | none => .ok (st, lw, hw)
    | some nid =>
      let st1 :=
        match e.measReportConfig with
        | some m =>
          if m.truthyV then
            modifyNode st nid fun n => { n with measReportConfig := some m.asList }
          else st
        | none => st
      .ok (modifyNode st1 nid (fun n => { n with grant :=
            { n.grant with
                grantId := e.grantId,
                grantStatus := some "GRANTED",
                grantExpireTime := e.grantExpireTime,
                heartbeatInterval := e.heartbeatInterval,
                channelType := e.channelType } }), lw, hw)
  else .ok (st, lw, hw)

/-- Fold of `processGrantElement`, threading the handler-local `low`/`high`. -/
def processGrantResponses : SasState → Loc → Loc → List GrantResponse →
    Except (PyError × SasState) SasState
  | st, _, _, [] => .ok st
  | st, lw, hw, e :: rest =>
    match processGrantElement st lw hw e with
    | .ok (st', lw', hw') => processGrantResponses st' lw' hw' rest
    | .error x => .error x

/-- `handleGrantResponse` (socket_to_sas.py:809-882). -/
def handleGrantResponse (st : SasState) (data : Option (List GrantResponse)) :
    Except (PyError × SasState) SasState :=
  match data with
  | none => .ok st
  | some [] => .ok st
  | some (e :: rest) => processGrantResponses st none none (e :: rest)

/-- One element of a `heartbeatResponse` batch. -/
structure HbResponse where
  response : Option RespEnvelope := none
  cbsdId : Option String := none
  grantId : Option String := none
  transmitExpireTime : Option String := none
  grantExpireTime : Option String := none
  heartbeatInterval : Option String := none
  measReportConfig : Option MeasVal := none
  operationParam : Option OperationParam := none
deriving DecidableEq

/-- The loop body of `handleHeartbeatResponse` (socket_to_sas.py:967-1032): on
envelope failure print the suggested parameters; on success resolve the Node by
cbsdId first, then require grantId, transmitExpireTime, grantExpireTime,
heartbeatInterval, optionally replace `measReportConfig`, and finally arm the
renewal timer for `float(heartbeatInterval) * 0.9` seconds floored at 1 with
callback `heartbeatRequest`.  The Grant fields themselves are never written. -/
def processHbElement (st : SasState) (lw hw : Loc) (e : HbResponse) :
    Except (PyError × SasState) (SasState × Loc × Loc) :=
  if (isValidResponse e.response).1 = false then
    suggestedOpParams st lw hw e.operationParam
  else if truthy e.cbsdId then
    match findTempNodeByCbsdId st (e.cbsdId.getD "") with
    | none => .ok (st, lw, hw)
    | some nid =>
      if !truthy e.grantId then .ok (st, lw, hw)
      else if !truthy e.transmitExpireTime then .ok (st, lw, hw)
      else if !truthy e.grantExpireTime then .ok (st, lw, hw)
      else if !truthy e.heartbeatInterval then .ok (st, lw, hw)
      else
        let st1 :=
          match e.measReportConfig with
          | some m =>
            if m.truthyV then
              modifyNode st nid fun n => { n with measReportConfig := some m.asList }
            else st
          | none => st
        match parsePyFloat (e.heartbeatInterval.getD "") with
        | none => .error (.valueError, st1)
        | some q =>
          let d : ℚ := q * (9 / 10)
          let d' := if d < 1 then 1 else d
          .ok ({ st1 with renewalTimers :=
                  st1.renewalTimers ++ [{ delay := d', callback := .heartbeatRequestCb }] },
               lw, hw)
  else .ok (st, lw, hw)

/-- Fold of `processHbElement`, threading the handler-local `low`/`high`. -/
def processHbResponses : SasState → Loc → Loc → List HbResponse →
    Except (PyError × SasState) SasState
  | st, _, _, [] => .ok st
  | st, lw, hw, e :: rest =>
    match processHbElement st lw hw e with
    | .ok (st', lw', hw') => processHbResponses st' lw' hw' rest
    | .error x => .error x

/-- Mark the timer at index `i` cancelled (`threading.Timer.cancel`, a no-op on
a fired or missing timer). -/
def cancelTimerAt (ts : List Timer) (i : Nat) : List Timer :=
  match ts.get? i with
  | none => ts
  | some t => ts.set i { t with cancelled := true }

/-- The timer tail of `heartbeatRequest` (socket_to_sas.py:944-950): arm the
240-second expiry watchdog with the radio-stop callback, and store the value of
`threading.Timer(240, node_stop).start()` - which is None, since `start()`
returns None - in the `__heartbeatTimer` variable. -/
def heartbeatRequestArmWatchdog (st : SasState) : SasState :=
  { st with
      watchdogs := st.watchdogs ++ [{ delay := 240, callback := .nodeStop }],
      heartbeatTimer := none }

/-- `handleHeartbeatResponse` (socket_to_sas.py:952-1032): the first statement
is `__heartbeatTimer.cancel()`; when `__heartbeatTimer` is None this raises
AttributeError before any data is examined.  Otherwise the watchdog is
cancelled and the batch walked. -/
def handleHeartbeatResponse (st : SasState) (data : Option (List HbResponse)) :
    Except (PyError × SasState) SasState :=
  match st.heartbeatTimer with
  | none => .error (.attributeError, st)
  | some i =>
    let st1 := { st with watchdogs := cancelTimerAt st.watchdogs i }
    match data with
    | none => .ok st1
    | some [] => .ok st1
    | some (e :: rest) => processHbResponses st1 none none (e :: rest)

/-- One element of a `relinquishmentResponse` batch. -/
structure RelResponse where
  response : Option RespEnvelope := none
  cbsdId : Option String := none
  grantId : Option String := none
deriving DecidableEq

/-- The loop body of `handleRelinquishmentResponse` (socket_to_sas.py:1116-1141):
validate, resolve the Node by cbsdId, require grantId, then reset the Node's
Grant via `Grant.__init__()`.  No timer is cancelled: line 1141 is the comment
"TODO: If a heartbeat is scheduled, make sure to address it". -/
def processRelElement (st : SasState) (e : RelResponse) :
    Except (PyError × SasState) SasState :=
  if (isValidResponse e.response).1 = false then .ok st
  else if truthy e.cbsdId then
    match findTempNodeByCbsdId st (e.cbsdId.getD "") with
    | none => .ok st
    | some nid =>
      if !truthy e.grantId then .ok st
      else .ok (modifyNode st nid fun n => { n with grant := emptyGrant })
  else .ok st

/-- Fold of `processRelElement` over a response batch. -/
def processRelResponses : SasState → List RelResponse → Except (PyError × SasState) SasState
  | st, [] => .ok st
  | st, e :: rest =>
    match processRelElement st e with
    | .ok st' => processRelResponses st' rest
    | .error x => .error x

/-- `handleRelinquishmentResponse` (socket_to_sas.py:1102-1141). -/
def handleRelinquishmentResponse (st : SasState) (data : Option (List RelResponse)) :
    Except (PyError × SasState) SasState :=
  match data with
  | none => .ok st
  | some [] => .ok st
  | some (e :: rest) => processRelResponses st (e :: rest)

/-- Firing an armed timer calls its stored callback with the empty argument
tuple that both `threading.Timer` call sites supply (socket_to_sas.py:950 and
1031 pass a function and no argument list).  `heartbeatRequest(clientio,
payload=None)` (line 922) requires the positional `clientio`, so the renewal
callback raises TypeError at fire time and re-issues no heartbeat request for
any Node.  `node_stop` is modelled from the spec: the radio-stop callback
(spec 4.3, watchdog firing commands the radio to stop), imported from a module
not under src/. -/
def fireTimerCallback : TimerCb → Except PyError Unit
  | .nodeStop => .ok ()
  | .heartbeatRequestCb => .error .typeError

/-- The state reached by a step that returns a plain state, whether it returned
normally or raised. -/
def resState : Except (PyError × SasState) SasState → SasState
  | .ok s => s
  | .error (_, s) => s

/-- The state reached by a grant/heartbeat element step, whether it returned
normally or raised. -/
def stepState : Except (PyError × SasState) (SasState × Loc × Loc) → SasState
  | .ok (s, _, _) => s
  | .error (_, s) => s

/- Helper lemmas -/

theorem setAt_get?_self {l : List Node} {i : Nat} {n : Node} (f : Node → Node)
    (h : l.get? i = some n) : (setAt l i f).get? i = some (f n) := by
  induction l generalizing i with
  | nil => simp at h
  | cons a as ih =>
    cases i with
    | zero => simp [setAt]; simp at h; rw [h]
    | succ k => simpa [setAt] using ih (by simpa using h)

theorem setAt_get?_ne {l : List Node} {i : Nat} (f : Node → Node) {k : Nat}
    (h : k ≠ i) : (setAt l i f).get? k = l.get? k := by
  induction l generalizing i k with
  | nil => simp [setAt]
  | cons a as ih =>
    cases i with
    | zero =>
      cases k with
      | zero => exact absurd rfl h
      | succ j => simp [setAt]
    | succ m =>
      cases k with
      | zero => simp [setAt]
      | succ j => simpa [setAt] using ih (fun hc => h (by rw [hc]))

theorem badEnvelope_isValid {o : Option RespEnvelope} (h : badEnvelope o) :
    (isValidResponse o).1 = false := by
  rcases h with h | ⟨r, rfl, h⟩
  · subst h; rfl
  · simp only [isValidResponse]
    cases hrc : r.responseCode with
    | none => rfl
    | some code =>
      by_cases hce : code = ""
      · simp [hce]
      · rcases h with h | h
        · rw [hrc] at h
          simp [truthy, hce] at h
        · rw [hrc] at h
          have hcz : code ≠ "0" := fun hq => h (by rw [hq])
          simp [hce, hcz]

theorem stepState_suggestedOpParams (st : SasState) (lw hw : Loc) (op : Option OperationParam) :
    stepState (suggestedOpParams st lw hw op) = st := by
  rcases op with _ | ⟨eirp, ofr⟩
  · rfl
  · rcases ofr with _ | fr
    · rcases lw with _ | l
      · rfl
      · by_cases hl : truthy l
        · rcases hw with _ | h
          · simp [suggestedOpParams, hl, stepState]
          · simp [suggestedOpParams, hl, stepState]
        · simp [suggestedOpParams, hl, stepState]
    · rfl

/-- C2: for the grant, heartbeat and relinquishment response processors, an
element whose response envelope is missing, whose responseCode is missing, or
whose responseCode is non-zero leaves the whole state - in particular every
Node's Grant status and all other Grant fields - exactly as it was, whether the
element's processing returns normally or raises. -/
theorem c2_invalid_element_leaves_state (st : SasState) (lw hw : Loc)
    (eg : GrantResponse) (eh : HbResponse) (er : RelResponse)
    (hg : badEnvelope eg.response) (hh : badEnvelope eh.response)
    (hr : badEnvelope er.response) :
    stepState (processGrantElement st lw hw eg) = st
    ∧ stepState (processHbElement st lw hw eh) = st
    ∧ resState (processRelElement st er) = st := by
  refine ⟨?_, ?_, ?_⟩
  · unfold processGrantElement
    simp [badEnvelope_isValid hg, stepState_suggestedOpParams]
  · unfold processHbElement
    simp [badEnvelope_isValid hh, stepState_suggestedOpParams]
  · unfold processRelElement
    simp [badEnvelope_isValid hr, resState]

def c2St : SasState := { nodes := [{ ipAddress := "ip0", cbsdId := some "X" }], tempNodeList := [0] }

def c2GrantElem : GrantResponse := { cbsdId := some "X" }

def c2HbElem : HbResponse := { response := some { responseCode := none }, cbsdId := some "X" }

def c2RelElem : RelResponse := { response := some { responseCode := some "5" }, cbsdId := some "X" }

/-- Witness for C2 at concrete inputs: a grant element with no envelope, a
heartbeat element with no responseCode, and a relinquishment element with
responseCode "5" all leave the state untouched. -/
theorem c2_witness :
    stepState (processGrantElement c2St none none c2GrantElem) = c2St
    ∧ stepState (processHbElement c2St none none c2HbElem) = c2St
    ∧ resState (processRelElement c2St c2RelElem) = c2St :=
  c2_invalid_element_leaves_state c2St none none c2GrantElem c2HbElem c2RelElem
    (Or.inl rfl) (Or.inr ⟨_, rfl, Or.inl rfl⟩) (Or.inr ⟨_, rfl, Or.inr (by decide)⟩)

def c4Node : Node := { ipAddress := "ip0", cbsdId := some "X" }

def c4St0 : SasState := { nodes := [c4Node], tempNodeList := [0] }

def c4St1 : SasState := heartbeatRequestArmWatchdog c4St0

def c4Hb : HbResponse :=
  { response := some { responseCode := some "0" }, cbsdId := some "X",
    grantId := some "G1", transmitExpireTime := some "TT",
    grantExpireTime := some "GT", heartbeatInterval := some "10" }

/-- C4, code bug: `heartbeatRequest` arms the 240-second expiry watchdog but
stores `threading.Timer(240, node_stop).start()` - the None returned by
`start()` - in `__heartbeatTimer` (socket_to_sas.py:950).  The first statement
of `handleHeartbeatResponse`, `__heartbeatTimer.cancel()` (line 957), therefore
raises AttributeError on every heartbeat response, cancelling nothing and
processing no element: the watchdog is never cancelled, contrary to the claim. -/
theorem c4_watchdog_cancel_crashes :
    c4St1.watchdogs = [{ delay := 240, callback := .nodeStop, cancelled := false }]
    ∧ c4St1.heartbeatTimer = none
    ∧ handleHeartbeatResponse c4St1 (some [c4Hb]) = .error (.attributeError, c4St1)
    ∧ (∀ st : SasState, (heartbeatRequestArmWatchdog st).heartbeatTimer = none) :=
  ⟨rfl, rfl, rfl, fun _ => rfl⟩

def c8Grant : Grant :=
  { grantId := some "G1", grantStatus := some "GRANTED", grantExpireTime := some "GT",
    heartbeatInterval := some "10", channelType := some "GAA" }

def c8Node : Node :=
  { ipAddress := "ip0", serialNumber := some "S", cbsdId := some "X", grant := c8Grant }

def c8Renewal : Timer := { delay := 9 / 5, callback := .heartbeatRequestCb }

def c8Watchdog : Timer := { delay := 240, callback := .nodeStop }

def c8St : SasState :=
  { nodes := [c8Node], tempNodeList := [0],
    watchdogs := [c8Watchdog], renewalTimers := [c8Renewal] }

def c8Elem : RelResponse :=
  { response := some { responseCode := some "0" }, cbsdId := some "X", grantId := some "G1" }

/-- C8, code bug: a successful relinquishment element does reset the resolved
Node's Grant to the NONE/empty state, but it cancels no timer: the armed
renewal timer and expiry watchdog survive unchanged (socket_to_sas.py:1139-1141,
whose closing comment is "TODO: If a heartbeat is scheduled, make sure to
address it"), contrary to the claim's second conjunct. -/
theorem c8_relinquishment_keeps_timers :
    processRelElement c8St c8Elem = .ok { c8St with nodes := [{ c8Node with grant := emptyGrant }] }
    ∧ (resState (processRelElement c8St c8Elem)).renewalTimers = [c8Renewal]
    ∧ (resState (processRelElement c8St c8Elem)).watchdogs = [c8Watchdog] :=
  ⟨rfl, rfl, rfl⟩

def c9Node0 : Node := { ipAddress := "ip0" }

def c9Node1 : Node := { ipAddress := "ip1", serialNumber := some "S1" }

def c9St : SasState := { nodes := [c9Node0, c9Node1], tempNodeList := [] }

def c9Req0 : RegRequest := { nodeIp := some "ip0", userId := some "U0", fccId := some "F0" }

def c9Req1 : RegRequest := { nodeIp := some "ip1", userId := some "U1", fccId := some "F1" }

def c9ReqNoUser : RegRequest := { nodeIp := some "ip1", fccId := some "F1" }

/-- C9, code bug: a registration parameter set whose resolved Node has no
serial number raises AttributeError instead of being skipped - the diagnostic
at socket_to_sas.py:431 evaluates the nonexistent attribute `node.getIpaAddress`
- so the valid second parameter set of the batch is never processed.  The
missing-userId path, by contrast, is skipped with the batch continuing, as the
claim describes. -/
theorem c9_missing_serial_raises :
    simRegistrationReq c9St [c9Req0, c9Req1] =
      .error (.attributeError, { c9St with tempNodeList := [] })
    ∧ simRegistrationReq c9St [c9ReqNoUser, c9Req1] =
      .ok ({ c9St with tempNodeList := [1] },
           [{ userId := "U1", fccId := "F1", cbsdSerialNumber := "S1" }]) :=
  ⟨rfl, rfl⟩

/-- C1: a registration response element at index `i` that passes envelope
validation and carries a cbsdId mutates exactly the Node referenced at index
`i` of the correlation queue - assigning it the cbsdId, whether or not the
element then raises on a truthy measReportConfig - and `simRegistrationReq`
rebuilds `tempNodeList` from scratch, ignoring whatever queue an older batch
left behind, so the mutated Node is never taken from an older batch. -/
theorem c1_positional_correlation (st : SasState) (i : Nat) (e : RegResponse)
    (nid : Nat) (c : String)
    (hv : (isValidResponse e.response).1 = true)
    (hc : e.cbsdId = some c) (hcne : c ≠ "")
    (hget : st.tempNodeList.get? i = some nid) :
    resState (processRegElement st i e) =
      modifyNode st nid (fun n => { n with cbsdId := some c })
    ∧ (∀ q reqs, simRegistrationReq { st with tempNodeList := q } reqs =
        simRegistrationReq st reqs) := by
  constructor
  · have htr : truthy e.cbsdId = true := by rw [hc]; simp [truthy, hcne]
    simp only [processRegElement, hv, htr, hget, hc]
    norm_num
    cases h : e.response.bind RespEnvelope.measReportConfig with
    | none => simp [h, resState, truthy, hcne]
    | some m =>
      by_cases hm : m.truthyV <;> simp [h, hm, resState, truthy, hcne]
  · intro q reqs; rfl

def c1Node : Node := { ipAddress := "ip0" }

def c1St : SasState := { nodes := [c1Node], tempNodeList := [0] }

def c1Resp : RegResponse := { response := some { responseCode := some "0" }, cbsdId := some "C1" }

/-- Witness for C1: a successful single-element registration response assigns
cbsdId "C1" to the Node at queue index 0, and rebuilding the queue ignores a
stale queue value. -/
theorem c1_witness :
    (isValidResponse c1Resp.response).1 = true
    ∧ resState (processRegElement c1St 0 c1Resp) =
        modifyNode c1St 0 (fun n => { n with cbsdId := some "C1" })
    ∧ simRegistrationReq { c1St with tempNodeList := [5] } [] = simRegistrationReq c1St [] :=
  ⟨by decide,
   (c1_positional_correlation c1St 0 c1Resp 0 "C1" (by decide) rfl (by decide) rfl).1,
   (c1_positional_correlation c1St 0 c1Resp 0 "C1" (by decide) rfl (by decide) rfl).2 [5] []⟩

theorem modifyNode_get?_self {st : SasState} {nid : Nat} (f : Node → Node) {n : Node}
    (hn : st.nodes.get? nid = some n) :
    (modifyNode st nid f).nodes.get? nid = some (f n) :=
  setAt_get?_self f hn

theorem modifyNode_get?_ne {st : SasState} {nid : Nat} (f : Node → Node) {k : Nat}
    (hk : k ≠ nid) :
    (modifyNode st nid f).nodes.get? k = st.nodes.get? k :=
  setAt_get?_ne f hk

/-- C5: in the grant response processor, for an element whose envelope reports
success, if any of channelType, grantId, grantExpireTime, heartbeatInterval is
absent the element causes no state change at all; if all four are present and a
Node resolves, that Node's Grant status becomes "GRANTED" with grantId,
grantExpireTime, heartbeatInterval and channelType populated from the response,
every other Node and all other state components are untouched. -/
theorem c5_grant_success_requires_fields (st : SasState) (lw hw : Loc) (e : GrantResponse)
    (hv : (isValidResponse e.response).1 = true) :
    ((¬ truthy e.channelType = true ∨ ¬ truthy e.grantId = true
        ∨ ¬ truthy e.grantExpireTime = true ∨ ¬ truthy e.heartbeatInterval = true) →
      processGrantElement st lw hw e = .ok (st, lw, hw))
    ∧ (∀ ct gid gt hi c nid n,
        e.channelType = some ct → ct ≠ "" →
        e.grantId = some gid → gid ≠ "" →
        e.grantExpireTime = some gt → gt ≠ "" →
        e.heartbeatInterval = some hi → hi ≠ "" →
        e.cbsdId = some c → c ≠ "" →
        findTempNodeByCbsdId st c = some nid →
        st.nodes.get? nid = some n →
        ∃ st', processGrantElement st lw hw e = .ok (st', lw, hw)
          ∧ st'.nodes.get? nid = some { n with
              measReportConfig :=
                match e.measReportConfig with
                | some m => if m.truthyV then some m.asList else n.measReportConfig
                | none => n.measReportConfig,
              grant := { n.grant with
                  grantId := some gid, grantStatus := some "GRANTED",
                  grantExpireTime := some gt, heartbeatInterval := some hi,
                  channelType := some ct } }
          ∧ (∀ k, k ≠ nid → st'.nodes.get? k = st.nodes.get? k)
          ∧ st'.tempNodeList = st.tempNodeList
          ∧ st'.renewalTimers = st.renewalTimers
          ∧ st'.watchdogs = st.watchdogs
          ∧ st'.heartbeatTimer = st.heartbeatTimer) := by
  constructor
  · intro hbad
    by_cases h1 : truthy e.channelType
    · by_cases h2 : truthy e.grantId
      · by_cases h3 : truthy e.grantExpireTime
        · by_cases h4 : truthy e.heartbeatInterval
          · tauto
          · simp [processGrantElement, hv, h1, h2, h3, h4]
        · simp [processGrantElement, hv, h1, h2, h3]
      · simp [processGrantElement, hv, h1, h2]
    · simp [processGrantElement, hv, h1]
  · intro ct gid gt hi c nid n hct hctne hgid hgidne hgt hgtne hhi hhine hc hcne hfind hn
    have t1 : truthy e.channelType = true := by rw [hct]; simp [truthy, hctne]
    have t2 : truthy e.grantId = true := by rw [hgid]; simp [truthy, hgidne]
    have t3 : truthy e.grantExpireTime = true := by rw [hgt]; simp [truthy, hgtne]
    have t4 : truthy e.heartbeatInterval = true := by rw [hhi]; simp [truthy, hhine]
    have t5 : truthy e.cbsdId = true := by rw [hc]; simp [truthy, hcne]
    have hgetd : e.cbsdId.getD "" = c := by rw [hc]; rfl
    cases hm : e.measReportConfig with
    | none =>
      refine ⟨modifyNode st nid (fun x => { x with grant :=
          { x.grant with
              grantId := e.grantId, grantStatus := some "GRANTED",
              grantExpireTime := e.grantExpireTime, heartbeatInterval := e.heartbeatInterval,
              channelType := e.channelType } }), ?_, ?_, ?_, rfl, rfl, rfl, rfl⟩
      · simp [processGrantElement, hv, t1, t2, t3, t4, t5, hgetd, hfind, hm]
      · rw [modifyNode_get?_self _ hn]
        simp [hct, hgid, hgt, hhi, hm]
      · intro k hk; exact modifyNode_get?_ne _ hk
    | some m =>
      by_cases hmt : m.truthyV
      · refine ⟨modifyNode (modifyNode st nid
            (fun x => { x with measReportConfig := some m.asList })) nid
            (fun x => { x with grant :=
              { x.grant with
                  grantId := e.grantId, grantStatus := some "GRANTED",
                  grantExpireTime := e.grantExpireTime,
                  heartbeatInterval := e.heartbeatInterval,
                  channelType := e.channelType } }), ?_, ?_, ?_, rfl, rfl, rfl, rfl⟩
        · simp [processGrantElement, hv, t1, t2, t3, t4, t5, hgetd, hfind, hm, hmt]
        · rw [modifyNode_get?_self _ (modifyNode_get?_self _ hn)]
          simp [hct, hgid, hgt, hhi, hm, hmt]
        · intro k hk
          rw [modifyNode_get?_ne _ hk, modifyNode_get?_ne _ hk]
      · refine ⟨modifyNode st nid (fun x => { x with grant :=
            { x.grant with
                grantId := e.grantId, grantStatus := some "GRANTED",
                grantExpireTime := e.grantExpireTime, heartbeatInterval := e.heartbeatInterval,
                channelType := e.channelType } }), ?_, ?_, ?_, rfl, rfl, rfl, rfl⟩
        · simp [processGrantElement, hv, t1, t2, t3, t4, t5, hgetd, hfind, hm, hmt]
        · rw [modifyNode_get?_self _ hn]
          simp [hct, hgid, hgt, hhi, hm, hmt]
        · intro k hk; exact modifyNode_get?_ne _ hk

def c5Node : Node := { ipAddress := "ip0", cbsdId := some "X" }

def c5St : SasState := { nodes := [c5Node], tempNodeList := [0] }

def c5MissingElem : GrantResponse :=
  { response := some { responseCode := some "0" }, cbsdId := some "X",
    channelType := some "GAA", grantId := some "G1", grantExpireTime := some "GT" }

def c5FullElem : GrantResponse :=
  { response := some { responseCode := some "0" }, cbsdId := some "X",
    channelType := some "GAA", grantId := some "G1", grantExpireTime := some "GT",
    heartbeatInterval := some "10" }

/-- Witness for C5: a successful grant element missing heartbeatInterval
changes nothing; with all four fields present the resolved Node's Grant becomes
GRANTED with all fields populated. -/
theorem c5_witness :
    processGrantElement c5St none none c5MissingElem = .ok (c5St, none, none)
    ∧ (∃ st', processGrantElement c5St none none c5FullElem = .ok (st', none, none)
        ∧ st'.nodes.get? 0 = some { c5Node with
            measReportConfig := c5Node.measReportConfig,
            grant := { c5Node.grant with
                grantId := some "G1", grantStatus := some "GRANTED",
                grantExpireTime := some "GT", heartbeatInterval := some "10",
                channelType := some "GAA" } }
        ∧ (∀ k, k ≠ 0 → st'.nodes.get? k = c5St.nodes.get? k)
        ∧ st'.tempNodeList = c5St.tempNodeList
        ∧ st'.renewalTimers = c5St.renewalTimers
        ∧ st'.watchdogs = c5St.watchdogs
        ∧ st'.heartbeatTimer = c5St.heartbeatTimer) :=
  ⟨(c5_grant_success_requires_fields c5St none none c5MissingElem (by decide)).1
      (Or.inr (Or.inr (Or.inr (by decide)))),
   (c5_grant_success_requires_fields c5St none none c5FullElem (by decide)).2
      "GAA" "G1" "GT" "10" "X" 0 c5Node rfl (by decide) rfl (by decide) rfl (by decide)
      rfl (by decide) rfl (by decide) rfl rfl⟩

theorem pyDelayFloor_eq_max (x : ℚ) : (if x < 1 then 1 else x) = max 1 x := by
  rcases lt_or_le x 1 with h | h
  · simp [h, max_eq_left h.le]
  · simp [not_lt.mpr h, max_eq_right h]

theorem processGrantElement_renewalTimers (st : SasState) (lw hw : Loc) (eg : GrantResponse) :
    (stepState (processGrantElement st lw hw eg)).renewalTimers = st.renewalTimers := by
  by_cases h0 : (isValidResponse eg.response).1 = false
  · simp [processGrantElement, h0, stepState_suggestedOpParams]
  · by_cases h1 : truthy eg.channelType = false
    · simp [processGrantElement, h0, h1, stepState]
    · by_cases h2 : truthy eg.grantId = false
      · simp [processGrantElement, h0, h1, h2, stepState]
      · by_cases h3 : truthy eg.grantExpireTime = false
        · simp [processGrantElement, h0, h1, h2, h3, stepState]
        · by_cases h4 : truthy eg.heartbeatInterval = false
          · simp [processGrantElement, h0, h1, h2, h3, h4, stepState]
          · by_cases h5 : truthy eg.cbsdId = true
            · cases hf : findTempNodeByCbsdId st (eg.cbsdId.getD "") with
              | none => simp [processGrantElement, h0, h1, h2, h3, h4, h5, hf, stepState]
              | some nid =>
                cases hm : eg.measReportConfig with
                | none =>
                  simp [processGrantElement, h0, h1, h2, h3, h4, h5, hf, hm, stepState,
                    modifyNode]
                | some m =>
                  by_cases hmt : m.truthyV = true <;>
                    simp [processGrantElement, h0, h1, h2, h3, h4, h5, hf, hm, hmt,
                      stepState, modifyNode]
            · simp [processGrantElement, h0, h1, h2, h3, h4, h5, stepState]

/-- The arming performed by a successful heartbeat element
(socket_to_sas.py:1023-1032): the renewal timer delay is exactly
max(1, 0.9 x heartbeatInterval) seconds with the `heartbeatRequest` function
as callback, watchdogs untouched; no grant response element ever arms a
renewal timer, and neither does an invalid heartbeat element. -/
theorem processHbElement_arms_renewal (st : SasState) (lw hw : Loc) (e : HbResponse) (nid : Nat) (q : ℚ)
    (hv : (isValidResponse e.response).1 = true)
    (hc : truthy e.cbsdId = true)
    (hfind : findTempNodeByCbsdId st (e.cbsdId.getD "") = some nid)
    (hg : truthy e.grantId = true)
    (ht : truthy e.transmitExpireTime = true)
    (hge : truthy e.grantExpireTime = true)
    (hhi : truthy e.heartbeatInterval = true)
    (hq : parsePyFloat (e.heartbeatInterval.getD "") = some q) :
    (∃ st', processHbElement st lw hw e = .ok (st', lw, hw)
      ∧ st'.renewalTimers = st.renewalTimers ++
          [{ delay := max 1 (q * (9 / 10)), callback := .heartbeatRequestCb, cancelled := false }]
      ∧ st'.watchdogs = st.watchdogs
      ∧ st'.heartbeatTimer = st.heartbeatTimer
      ∧ st'.tempNodeList = st.tempNodeList)
    ∧ (∀ eg : GrantResponse,
        (stepState (processGrantElement st lw hw eg)).renewalTimers = st.renewalTimers)
    ∧ (∀ eh : HbResponse, (isValidResponse eh.response).1 = false →
        (stepState (processHbElement st lw hw eh)).renewalTimers = st.renewalTimers) := by
  refine ⟨?_, fun eg => processGrantElement_renewalTimers st lw hw eg, ?_⟩
  · cases hm : e.measReportConfig with
    | none =>
      refine ⟨{ st with renewalTimers := st.renewalTimers ++
          [{ delay := max 1 (q * (9 / 10)), callback := .heartbeatRequestCb,
             cancelled := false }] }, ?_, rfl, rfl, rfl, rfl⟩
      simp [processHbElement, hv, hc, hfind, hg, ht, hge, hhi, hq, hm, pyDelayFloor_eq_max]
    | some m =>
      by_cases hmt : m.truthyV
      · refine ⟨{ modifyNode st nid (fun x => { x with measReportConfig := some m.asList }) with
            renewalTimers := st.renewalTimers ++
              [{ delay := max 1 (q * (9 / 10)), callback := .heartbeatRequestCb,
                 cancelled := false }] }, ?_, rfl, rfl, rfl, rfl⟩
        simp [processHbElement, hv, hc, hfind, hg, ht, hge, hhi, hq, hm, hmt,
          pyDelayFloor_eq_max, modifyNode]
      · refine ⟨{ st with renewalTimers := st.renewalTimers ++
            [{ delay := max 1 (q * (9 / 10)), callback := .heartbeatRequestCb,
               cancelled := false }] }, ?_, rfl, rfl, rfl, rfl⟩
        simp [processHbElement, hv, hc, hfind, hg, ht, hge, hhi, hq, hm, hmt,
          pyDelayFloor_eq_max]
  · intro eh hbad
    simp [processHbElement, hbad, stepState_suggestedOpParams]

def c3Node : Node := { ipAddress := "ip0", cbsdId := some "X" }

def c3St : SasState := { nodes := [c3Node], tempNodeList := [0] }

def c3Hb : HbResponse :=
  { response := some { responseCode := some "0" }, cbsdId := some "X",
    grantId := some "G1", transmitExpireTime := some "TT",
    grantExpireTime := some "GT", heartbeatInterval := some "2" }

/-- C3, code bug: a successful heartbeat element with heartbeatInterval "2"
does arm a renewal timer for exactly max(1, 2 x 9/10) = 1.8 seconds with the
`heartbeatRequest` function as callback, and grant response elements never arm
one; but the claim's firing conjunct fails on the code: line 1031 constructs
the timer with no argument list, so firing calls `heartbeatRequest()` without
the required positional `clientio` (line 922), raising TypeError instead of
re-issuing a heartbeat request for the Node - and the arming code is
unreachable at runtime anyway, since `handleHeartbeatResponse` raises
AttributeError on its first statement (line 957, the None stored at line 950)
before any element is processed. -/
theorem c3_renewal_fire_typeerror :
    (∃ st', processHbElement c3St none none c3Hb = .ok (st', none, none)
      ∧ st'.renewalTimers = c3St.renewalTimers ++
          [{ delay := max 1 ((2 : ℚ) * (9 / 10)), callback := .heartbeatRequestCb,
             cancelled := false }])
    ∧ (∀ eg : GrantResponse,
        (stepState (processGrantElement c3St none none eg)).renewalTimers = c3St.renewalTimers)
    ∧ fireTimerCallback .heartbeatRequestCb = .error .typeError
    ∧ handleHeartbeatResponse (heartbeatRequestArmWatchdog c3St) (some [c3Hb]) =
        .error (.attributeError, heartbeatRequestArmWatchdog c3St) :=
  ⟨((processHbElement_arms_renewal c3St none none c3Hb 0 2 (by decide) (by decide) (by decide)
      (by decide) (by decide) (by decide) (by decide) (by decide)).1).imp
        (fun st' h => ⟨h.1, h.2.1⟩),
   fun eg => processGrantElement_renewalTimers c3St none none eg,
   rfl, rfl⟩

def c6Node : Node := { ipAddress := "ip0", cbsdId := some "X" }

def c6St : SasState := { nodes := [c6Node], tempNodeList := [] }

def c6Elem : GrantResponse :=
  { response := some { responseCode := some "0" }, cbsdId := some "X",
    channelType := some "GAA", grantId := some "G1", grantExpireTime := some "GT",
    heartbeatInterval := some "10" }

/-- C6, counterexample: resolution is NOT a device-registry lookup.  Here the
registry (`created_nodes`) holds a Node with cbsdId "X", so a registry lookup
resolves it (index 0), yet the source's `findTempNodeByCbsdId` searches only
the correlation queue `tempNodeList` - empty here, e.g. after an unrelated
later batch rebuilt it - so a fully valid, successful grant response element
for "X" resolves no Node and mutates nothing. -/
theorem c6_counterexample :
    registryLookupByCbsdId c6St "X" = some 0
    ∧ findTempNodeByCbsdId c6St "X" = none
    ∧ (isValidResponse c6Elem.response).1 = true
    ∧ processGrantElement c6St none none c6Elem = .ok (c6St, none, none) :=
  ⟨rfl, rfl, rfl, rfl⟩

/-- C6 as amended: for grant, heartbeat and relinquishment response elements
the Node to mutate is resolved by looking up the response's cbsdId in the
correlation queue (`tempNodeList`) of the most recent request batch - any Node
that resolves is a member of that queue - and an element whose cbsdId resolves
no queue Node is reported and skipped with no state mutation at all. -/
theorem c6_amended_queue_resolution (st : SasState) (lw hw : Loc) (c : String)
    (hcne : c ≠ "") (hnone : findTempNodeByCbsdId st c = none) :
    (∀ c' nid, findTempNodeByCbsdId st c' = some nid → nid ∈ st.tempNodeList)
    ∧ (∀ eg : GrantResponse, eg.cbsdId = some c →
        (isValidResponse eg.response).1 = true →
        stepState (processGrantElement st lw hw eg) = st)
    ∧ (∀ eh : HbResponse, eh.cbsdId = some c →
        (isValidResponse eh.response).1 = true →
        stepState (processHbElement st lw hw eh) = st)
    ∧ (∀ er : RelResponse, er.cbsdId = some c →
        (isValidResponse er.response).1 = true →
        resState (processRelElement st er) = st) := by
  refine ⟨fun c' nid h => List.mem_of_find?_eq_some h, ?_, ?_, ?_⟩
  · intro eg hceq hvv
    have t5 : truthy eg.cbsdId = true := by rw [hceq]; simp [truthy, hcne]
    have hgetd : eg.cbsdId.getD "" = c := by rw [hceq]; rfl
    by_cases h1 : truthy eg.channelType = false
    · simp [processGrantElement, hvv, h1, stepState]
    · by_cases h2 : truthy eg.grantId = false
      · simp [processGrantElement, hvv, h1, h2, stepState]
      · by_cases h3 : truthy eg.grantExpireTime = false
        · simp [processGrantElement, hvv, h1, h2, h3, stepState]
        · by_cases h4 : truthy eg.heartbeatInterval = false
          · simp [processGrantElement, hvv, h1, h2, h3, h4, stepState]
          · simp [processGrantElement, hvv, h1, h2, h3, h4, t5, hgetd, hnone, stepState]
  · intro eh hceq hvv
    have t5 : truthy eh.cbsdId = true := by rw [hceq]; simp [truthy, hcne]
    have hgetd : eh.cbsdId.getD "" = c := by rw [hceq]; rfl
    simp [processHbElement, hvv, t5, hgetd, hnone, stepState]
  · intro er hceq hvv
    have t5 : truthy er.cbsdId = true := by rw [hceq]; simp [truthy, hcne]
    have hgetd : er.cbsdId.getD "" = c := by rw [hceq]; rfl
    simp [processRelElement, hvv, t5, hgetd, hnone, resState]

def c6wHb : HbResponse :=
  { response := some { responseCode := some "0" }, cbsdId := some "Y",
    grantId := some "G1", transmitExpireTime := some "TT",
    grantExpireTime := some "GT", heartbeatInterval := some "10" }

def c6wRel : RelResponse :=
  { response := some { responseCode := some "0" }, cbsdId := some "Y", grantId := some "G1" }

def c6wGrant : GrantResponse :=
  { response := some { responseCode := some "0" }, cbsdId := some "Y",
    channelType := some "GAA", grantId := some "G1", grantExpireTime := some "GT",
    heartbeatInterval := some "10" }

/-- Witness for the amended C6: with cbsdId "Y" resolving no queue Node,
valid grant, heartbeat and relinquishment elements leave the state untouched. -/
theorem c6_witness :
    (∀ c' nid, findTempNodeByCbsdId c6St c' = some nid → nid ∈ c6St.tempNodeList)
    ∧ (∀ eg : GrantResponse, eg.cbsdId = some "Y" →
        (isValidResponse eg.response).1 = true →
        stepState (processGrantElement c6St none none eg) = c6St)
    ∧ (∀ eh : HbResponse, eh.cbsdId = some "Y" →
        (isValidResponse eh.response).1 = true →
        stepState (processHbElement c6St none none eh) = c6St)
    ∧ (∀ er : RelResponse, er.cbsdId = some "Y" →
        (isValidResponse er.response).1 = true →
        resState (processRelElement c6St er) = c6St) :=
  c6_amended_queue_resolution c6St none none "Y" (by decide) (by decide)

def c7Abc : RespEnvelope := { responseCode := some "abc" }

def c7Five : RespEnvelope := { responseCode := some "5" }

/-- C7, counterexample: `_isValidResponse` does NOT report a non-numeric
responseCode as a distinct malformed-response condition: its complete
observable output on the non-numeric code "abc" consists of exactly the same
report kinds - the code echo and the generic non-zero-code error - as on the
ordinary numeric failure code "5"; no distinct condition exists. -/
theorem c7_counterexample :
    (isValidResponse (some c7Abc)).2 = [.responseCodeIs "abc", .errNonZeroCode]
    ∧ (isValidResponse (some c7Five)).2 = [.responseCodeIs "5", .errNonZeroCode]
    ∧ (isValidResponse (some c7Abc)).2.map Report.tag
        = (isValidResponse (some c7Five)).2.map Report.tag
    ∧ (isValidResponse (some c7Abc)).1 = (isValidResponse (some c7Five)).1 :=
  ⟨rfl, rfl, rfl, rfl⟩

/-- C7 as amended: the validity check fails when the envelope is absent or
responseCode is absent (or empty), fails for every responseCode other than the
string "0" while surfacing responseMessage and responseData whenever present,
and treats a responseCode that is not interpretable as a non-negative integer
exactly like any other non-zero code - there is no distinct malformed-response
condition (the report-tag sequence does not depend on the code's text). -/
theorem c7_amended_validity (r : RespEnvelope) (s : String)
    (hs : r.responseCode = some s) (hne : s ≠ "") (hnz : s ≠ "0") :
    (isValidResponse none).1 = false
    ∧ (∀ r' : RespEnvelope, truthy r'.responseCode = false →
        (isValidResponse (some r')).1 = false)
    ∧ (isValidResponse (some r)).1 = false
    ∧ (isValidResponse (some r)).2.map Report.tag =
        [0] ++ (if truthy r.responseMessage then [1] else [])
            ++ (if truthy r.responseData then [2] else []) ++ [5]
    ∧ (∀ m, r.responseMessage = some m → m ≠ "" →
        Report.responseMessageIs m ∈ (isValidResponse (some r)).2)
    ∧ (∀ d, r.responseData = some d → d ≠ "" →
        Report.responseDataIs d ∈ (isValidResponse (some r)).2) := by
  refine ⟨rfl, ?_, ?_, ?_, ?_, ?_⟩
  · intro r' h
    cases hrc : r'.responseCode with
    | none => simp [isValidResponse, hrc]
    | some code =>
      rw [hrc] at h
      simp [truthy] at h
      simp [isValidResponse, hrc, h]
  · simp [isValidResponse, hs, hne, hnz]
  · cases hm : r.responseMessage with
    | none =>
      cases hd : r.responseData with
      | none => simp [isValidResponse, hs, hne, hnz, hm, hd, truthy, Report.tag]
      | some d =>
        by_cases hde : d = "" <;>
          simp [isValidResponse, hs, hne, hnz, hm, hd, hde, truthy, Report.tag]
    | some m =>
      by_cases hme : m = ""
      · cases hd : r.responseData with
        | none => simp [isValidResponse, hs, hne, hnz, hm, hme, hd, truthy, Report.tag]
        | some d =>
          by_cases hde : d = "" <;>
            simp [isValidResponse, hs, hne, hnz, hm, hme, hd, hde, truthy, Report.tag]
      · cases hd : r.responseData with
        | none => simp [isValidResponse, hs, hne, hnz, hm, hme, hd, truthy, Report.tag]
        | some d =>
          by_cases hde : d = "" <;>
            simp [isValidResponse, hs, hne, hnz, hm, hme, hd, hde, truthy, Report.tag]
  · intro m hm hmne
    simp [isValidResponse, hs, hne, hnz, hm, hmne]
  · intro d hd hdne
    simp [isValidResponse, hs, hne, hnz, hd, hdne]

def c7Full : RespEnvelope :=
  { responseCode := some "abc", responseMessage := some "why", responseData := some "info" }

/-- Witness for the amended C7: the non-numeric code "abc" with a message and
data present fails while surfacing both, with the uniform report-tag shape. -/
theorem c7_witness :
    (isValidResponse none).1 = false
    ∧ (∀ r' : RespEnvelope, truthy r'.responseCode = false →
        (isValidResponse (some r')).1 = false)
    ∧ (isValidResponse (some c7Full)).1 = false
    ∧ (isValidResponse (some c7Full)).2.map Report.tag =
        [0] ++ (if truthy c7Full.responseMessage then [1] else [])
            ++ (if truthy c7Full.responseData then [2] else []) ++ [5]
    ∧ (∀ m, c7Full.responseMessage = some m → m ≠ "" →
        Report.responseMessageIs m ∈ (isValidResponse (some c7Full)).2)
    ∧ (∀ d, c7Full.responseData = some d → d ≠ "" →
        Report.responseDataIs d ∈ (isValidResponse (some c7Full)).2) :=
  c7_amended_validity c7Full "abc" rfl (by decide) (by decide)

theorem processRegElement_tempNodeList (st : SasState) (i : Nat) (e : RegResponse) :
    (resState (processRegElement st i e)).tempNodeList = st.tempNodeList := by
  by_cases h0 : (isValidResponse e.response).1 = false
  · simp [processRegElement, h0, resState]
  · by_cases h1 : truthy e.cbsdId = true
    · cases hg : st.tempNodeList.get? i with
      | none =>
        rw [List.get?_eq_getElem?] at hg
        simp [processRegElement, h0, h1, hg, resState]
      | some nid =>
        rw [List.get?_eq_getElem?] at hg
        cases hm : e.response.bind RespEnvelope.measReportConfig with
        | none => simp [processRegElement, h0, h1, hg, hm, resState, modifyNode]
        | some m =>
          by_cases hmt : m.truthyV = true <;>
            simp [processRegElement, h0, h1, hg, hm, hmt, resState, modifyNode]
    · simp [processRegElement, h0, h1, resState]

theorem processRegResponses_ok_tempNodeList :
    ∀ (xs : List RegResponse) (st : SasState) (i : Nat) (s : SasState),
      processRegResponses st i xs = .ok s → s.tempNodeList = st.tempNodeList := by
  intro xs
  induction xs with
  | nil =>
    intro st i s h
    simp [processRegResponses] at h
    rw [← h]
  | cons e rest ih =>
    intro st i s h
    simp only [processRegResponses] at h
    cases he : processRegElement st i e with
    | ok st' =>
      rw [he] at h
      have h2 : st'.tempNodeList = st.tempNodeList := by
        have h3 := processRegElement_tempNodeList st i e
        rw [he] at h3
        exact h3
      rw [ih st' (i + 1) s h, h2]
    | error x =>
      rw [he] at h
      simp at h

theorem processRegResponses_append (xs : List RegResponse) :
    ∀ (st : SasState) (i : Nat) (ys : List RegResponse),
      processRegResponses st i (xs ++ ys) =
        match processRegResponses st i xs with
        | .ok s => processRegResponses s (i + xs.length) ys
        | .error x => .error x := by
  induction xs with
  | nil => intro st i ys; simp [processRegResponses]
  | cons e rest ih =>
    intro st i ys
    simp only [List.cons_append, processRegResponses]
    cases he : processRegElement st i e with
    | ok st' =>
      have harith : i + 1 + rest.length = i + (rest.length + 1) := by omega
      simp only [he, List.append_eq, ih st' (i + 1) ys, List.length_cons, harith]
    | error x => simp only [he]

/-- C10: when a registration response batch has more elements than the
correlation queue built by the most recent request batch, the first excess
element that passes envelope validation and carries a cbsdId reaches the
unguarded `tempNodeList[iter]`, raising an index error that carries the state
reached so far and aborts the remaining elements (the result does not depend
on the elements after the offending one). -/
theorem c10_excess_element_index_error (st : SasState) (pre : List RegResponse)
    (e : RegResponse) (rest : List RegResponse) (st' : SasState)
    (hpre : processRegResponses st 0 pre = .ok st')
    (hlen : st.tempNodeList.length ≤ pre.length)
    (hv : (isValidResponse e.response).1 = true)
    (hc : truthy e.cbsdId = true) :
    handleRegistrationResponse st (some (pre ++ e :: rest)) = .error (.indexError, st')
    ∧ handleRegistrationResponse st (some (pre ++ e :: rest)) =
        handleRegistrationResponse st (some (pre ++ [e])) := by
  have hhandle : ∀ ys : List RegResponse,
      handleRegistrationResponse st (some (pre ++ e :: ys)) =
        processRegResponses st 0 (pre ++ e :: ys) := by
    intro ys; cases pre <;> rfl
  have htmp : st'.tempNodeList = st.tempNodeList :=
    processRegResponses_ok_tempNodeList pre st 0 st' hpre
  have hget : st'.tempNodeList.get? pre.length = none := by
    rw [htmp]
    exact List.get?_eq_none.mpr hlen
  have hstep : processRegElement st' pre.length e = .error (.indexError, st') := by
    rw [List.get?_eq_getElem?] at hget
    simp [processRegElement, hv, hc, hget]
  have key : ∀ ys, processRegResponses st 0 (pre ++ e :: ys) = .error (.indexError, st') := by
    intro ys
    rw [processRegResponses_append pre st 0 (e :: ys), hpre]
    simp [processRegResponses, hstep]
  constructor
  · rw [hhandle rest, key rest]
  · rw [hhandle rest, hhandle [], key rest, key []]

def c10Node : Node := { ipAddress := "ip0" }

def c10St : SasState := { nodes := [c10Node], tempNodeList := [0] }

def c10R0 : RegResponse := { response := some { responseCode := some "0" }, cbsdId := some "C1" }

def c10R1 : RegResponse := { response := some { responseCode := some "0" }, cbsdId := some "C2" }

def c10Sta : SasState := { nodes := [{ c10Node with cbsdId := some "C1" }], tempNodeList := [0] }

/-- Witness for C10: a two-element registration response against a one-entry
queue processes element 0 normally and raises an index error on element 1. -/
theorem c10_witness :
    processRegResponses c10St 0 [c10R0] = .ok c10Sta
    ∧ handleRegistrationResponse c10St (some [c10R0, c10R1]) = .error (.indexError, c10Sta) :=
  ⟨rfl,
   (c10_excess_element_index_error c10St [c10R0] c10R1 [] c10Sta rfl (by decide)
      (by decide) (by decide)).1⟩

end SasClient
